import Mathlib

/-!
Shallow embedding of the genserver package (mapogolions/genserver,
src/genserver.go) and proofs about its codec and dispatch loop.

Modelling conventions:
* Go `error` interface values are `Option GoError` (`none` is Go `nil`).
* A Go panic payload is a `PanicPayload`; a computation that may panic
  returns an `Outcome`.
* A buffered channel is a `Chan`: its buffered contents, a closed flag and
  the capacity it was made with.  A send on an open channel appends to the
  buffer; blocking on a full buffer is a scheduling effect and is not
  modelled.  A send on a closed channel panics with the runtime error
  `send on closed channel`, an error value, exactly as in Go.
* Type-erased Go `any` values (request payloads and handler results) are
  `Value`; reply destinations, which can be nil, a non-pointer value or a
  typed pointer, are `GoAny`.
* The dispatch loop `Listen` is modelled over the trace of requests it
  dequeues before observing the request channel closed and drained.
-/

namespace GenServer

/-- A Go error value.  The constructors record which source expression
produced the value, so that `errors.New(s)`, `fmt.Errorf`, runtime errors,
`io.EOF` and arbitrary pre-existing error values stay distinguishable. -/
inductive GoError where
  | errorsNew (msg : String)
  | fmtErrorf (msg : String)
  | runtime (msg : String)
  | ioEOF
  | custom (id : Nat) (msg : String)
deriving DecidableEq, Repr

/-- The string returned by the `Error()` method of the error value. -/
def GoError.message : GoError → String
  | .errorsNew m => m
  | .fmtErrorf m => m
  | .runtime m => m
  | .ioEOF => "EOF"
  | .custom _ m => m

/-- A panic payload as seen by `recover()`: a string, an error value, or
anything else (kept as its `%v` formatting). -/
inductive PanicPayload where
  | ofString (s : String)
  | ofError (e : GoError)
  | ofOther (shown : String)
deriving DecidableEq, Repr

/-- Result of running a piece of Go code: either a normal result or an
escaped panic. -/
inductive Outcome (α : Type) where
  | ok (a : α)
  | panicked (p : PanicPayload)
deriving DecidableEq, Repr

/-- A buffered Go channel: buffered contents (front = next to receive),
closed flag, and the capacity passed to `make`. -/
structure Chan (α : Type) where
  buf : List α
  closed : Bool
  cap : Nat
deriving DecidableEq, Repr

/-- The runtime error carried by the panic of a send on a closed channel. -/
def sendOnClosedError : GoError := GoError.runtime "send on closed channel"

/-- `ch <- x`: panics with a runtime error if the channel is closed,
otherwise appends to the buffer. -/
def chanSend {α : Type} (c : Chan α) (x : α) : Outcome (Chan α) :=
  if c.closed then Outcome.panicked (PanicPayload.ofError sendOnClosedError)
  else Outcome.ok { c with buf := c.buf ++ [x] }

/-- Result of `x, ok := <-ch`: a buffered element, the closed-and-drained
signal (`ok = false`), or a suspension on an open empty channel. -/
inductive RecvResult (α : Type) where
  | received (x : α) (rest : List α)
  | closed
  | blocked
deriving DecidableEq, Repr

/-- `x, ok := <-ch` on the modelled channel state. -/
def chanRecv {α : Type} (c : Chan α) : RecvResult α :=
  match c.buf with
  | x :: rest => RecvResult.received x rest
  | [] => if c.closed then RecvResult.closed else RecvResult.blocked

/-- The conversion performed by the deferred `recover` block of `tryCatch`
(src/genserver.go lines 173-188): a string payload becomes `errors.New`,
an error payload is kept as is, anything else goes through
`fmt.Errorf`. -/
def recoverToError : PanicPayload → GoError
  | .ofString s => GoError.errorsNew s
  | .ofError e => e
  | .ofOther r => GoError.fmtErrorf r

/-- `tryCatch(f, crucialErr)`.  `f` is given by its outcome on the ambient
state; `orig` is the state before running `f`, restored when `f` panics
(the closures passed in the source mutate nothing before their single
channel send).  Returns the state after the call together with the final
value of the error out-parameter. -/
def tryCatch {α : Type} (f : Outcome α) (orig : α) (crucialErr : Option GoError) :
    α × Option GoError :=
  match f with
  | Outcome.ok a => (a, crucialErr)
  | Outcome.panicked info => (orig, some (recoverToError info))

/-- Runtime type tags for the small universe of payload values. -/
inductive TypeTag where
  | intT
  | stringT
  | boolT
deriving DecidableEq, Repr

/-- A type-erased Go value held in an `any` (request payload or handler
result).  `nil` is the nil interface value. -/
inductive Value where
  | nil
  | int (n : Int)
  | str (s : String)
  | bool (b : Bool)
deriving DecidableEq, Repr

/-- `reflect.TypeOf` on the value: `none` for the nil interface. -/
def Value.ty : Value → Option TypeTag
  | .nil => none
  | .int _ => some TypeTag.intT
  | .str _ => some TypeTag.stringT
  | .bool _ => some TypeTag.boolT

/-- A Go `any` used as a reply destination: nil, a non-pointer value, or a
pointer with a static element type and a current pointee. -/
inductive GoAny where
  | nil
  | val (v : Value)
  | ptr (elemTy : TypeTag) (target : Value)
deriving DecidableEq, Repr

/-- The `request` struct. -/
structure Request where
  seq : Nat
  serviceMethod : String
  body : Value
deriving DecidableEq, Repr

/-- The `result[any]` struct: handler value and handler error. -/
structure HResult where
  Value : Value
  Error : Option GoError
deriving DecidableEq, Repr

/-- The `response` struct. -/
structure Response where
  seq : Nat
  serviceMethod : String
  result : HResult
deriving DecidableEq, Repr

/-- The `genServerCodec` struct: the two channels and the `current`
response cached by `ReadResponseHeader` for `ReadResponseBody`. -/
structure genServerCodec where
  requests : Chan Request
  responses : Chan Response
  current : Response
deriving DecidableEq, Repr

/-- `newGenServer(incap, outcap)`: fresh open channels of the given
capacities (the rpc client wired around the codec is out of scope; the
codec holds the whole mailbox state). -/
def newGenServer (incap : Nat) (outcap : Nat) : genServerCodec :=
  { requests := { buf := [], closed := false, cap := incap }
    responses := { buf := [], closed := false, cap := outcap }
    current := { seq := 0, serviceMethod := ""
                 result := { Value := Value.nil, Error := none } } }

/-- `NewGenServer()`: the default construction. -/
def NewGenServer : genServerCodec := newGenServer 4096 4096

/-- The `net/rpc` response header mutated by `ReadResponseHeader`. -/
structure RpcResponse where
  Seq : Nat
  ServiceMethod : String
  Error : String
deriving DecidableEq, Repr

/-- `genServerCodec.WriteRequest`: the enqueue of the request is wrapped in
`tryCatch`, so a send on a closed request channel is returned as an error
for this submission.  Returns the updated codec and the error. -/
def WriteRequest (c : genServerCodec) (seq : Nat) (serviceMethod : String)
    (body : Value) : genServerCodec × Option GoError :=
  let sent := tryCatch
    (chanSend c.requests { seq := seq, serviceMethod := serviceMethod, body := body })
    c.requests none
  ({ c with requests := sent.1 }, sent.2)

/-- `genServerCodec.ReadResponseHeader`: receives from the response
channel; `none` models the receive suspending on an open empty channel.
On the closed-and-drained signal it returns `io.EOF`; otherwise it caches
the response, fills the header (the `Error` field only when the handler
error is non-nil) and returns the handler error. -/
def ReadResponseHeader (c : genServerCodec) (res : RpcResponse) :
    Option (genServerCodec × RpcResponse × Option GoError) :=
  match chanRecv c.responses with
  | RecvResult.blocked => none
  | RecvResult.closed => some (c, res, some GoError.ioEOF)
  | RecvResult.received resp rest =>
    let c2 := { c with responses := { c.responses with buf := rest }, current := resp }
    let res2 := { res with
      Seq := resp.seq
      ServiceMethod := resp.serviceMethod
      Error := match resp.result.Error with
        | some e => e.message
        | none => res.Error }
    some (c2, res2, resp.result.Error)

/-- `genServerCodec.ReadResponseBody`: the outer `none` models
`log.Fatal("must be unreachable")` when the cached response carries an
error.  Otherwise the cached value is written into the destination only
when the value is non-nil, the destination is a pointer, and the pointer
element type equals the runtime type of the value; in every other case the
destination is untouched.  Always returns a nil error. -/
def ReadResponseBody (c : genServerCodec) (body : GoAny) :
    Option (GoAny × Option GoError) :=
  if c.current.result.Error ≠ none then none
  else
    match c.current.result.Value, body with
    | Value.nil, _ => some (body, none)
    | _, GoAny.nil => some (body, none)
    | _, GoAny.val _ => some (body, none)
    | v, GoAny.ptr ty _ =>
      if v.ty = some ty then some (GoAny.ptr ty v, none) else some (body, none)

/-- The `Behaviour` contract: `Handle(serviceMethod, seq, body)` returns a
value and an error, or panics. -/
def Behaviour : Type := String → Nat → Value → Outcome (Value × Option GoError)

/-- The response built by the dispatch loop from a request and the handler
outputs. -/
def mkResponse (req : Request) (v : Value) (err : Option GoError) : Response :=
  { seq := req.seq, serviceMethod := req.serviceMethod
    result := { Value := v, Error := err } }

/-- `genServerCodec.Listen`, over the trace `reqs` of requests dequeued
before the loop observes the request channel closed and drained.  The
`Handle` invocation is not guarded, so a handler panic escapes the loop
(`Outcome.panicked`).  The response enqueue is wrapped in `tryCatch`; a
caught enqueue fault is appended to `logged` (modelling `log.Print`) and
the loop continues.  On the closed signal the loop returns normally with
the final response channel and log. -/
def Listen (behaviour : Behaviour) (reqs : List Request) (responses : Chan Response)
    (logged : List GoError) : Outcome (Chan Response × List GoError) :=
  match reqs with
  | [] => Outcome.ok (responses, logged)
  | req :: rest =>
    match behaviour req.serviceMethod req.seq req.body with
    | Outcome.panicked p => Outcome.panicked p
    | Outcome.ok (v, err) =>
      let sent := tryCatch (chanSend responses (mkResponse req v err)) responses none
      let logged2 := match sent.2 with
        | some e => logged ++ [e]
        | none => logged
      Listen behaviour rest sent.1 logged2

/-- The response the dispatch loop enqueues for a request whose `Handle`
invocation returns normally (the panicking branch is never reached under
that assumption). -/
def respOf (b : Behaviour) (req : Request) : Response :=
  match b req.serviceMethod req.seq req.body with
  | Outcome.ok (v, err) => mkResponse req v err
  | Outcome.panicked _ => mkResponse req Value.nil none

/-- The part of an `rpc.Call` handle that `Reply[T]` reads. -/
structure rpcCall where
  Reply : GoAny
deriving DecidableEq, Repr

/-- `Reply[T](call)`: `*(call.Reply.(*T))` — a direct type assertion to a
pointer of the expected type followed by a dereference; the assertion
panics on anything else. -/
def Reply (t : TypeTag) (call : rpcCall) : Outcome Value :=
  match call.Reply with
  | GoAny.ptr pty target =>
    if pty = t then Outcome.ok target
    else Outcome.panicked (PanicPayload.ofError (GoError.runtime "interface conversion"))
  | _ => Outcome.panicked (PanicPayload.ofError (GoError.runtime "interface conversion"))

/-! Concrete fixtures used by witnesses and counterexamples. -/

/-- A behaviour that echoes the request body back with a nil error. -/
def echoBehaviour : Behaviour := fun _ _ body => Outcome.ok (body, none)

/-- A behaviour whose Handle always panics with the string "boom". -/
def panickingBehaviour : Behaviour :=
  fun _ _ _ => Outcome.panicked (PanicPayload.ofString "boom")

/-- A sample request. -/
def reqA : Request := { seq := 1, serviceMethod := "get", body := Value.int 7 }

/-- A second sample request. -/
def reqB : Request := { seq := 2, serviceMethod := "put", body := Value.str "x" }

/-- An empty open response channel. -/
def openChan : Chan Response := { buf := [], closed := false, cap := 4096 }

/-- An empty closed response channel. -/
def closedChan : Chan Response := { buf := [], closed := true, cap := 4096 }

/-- A zeroed rpc response header. -/
def headerA : RpcResponse := { Seq := 0, ServiceMethod := "", Error := "" }

/-- A codec whose request channel has been closed. -/
def closedReqCodec : genServerCodec :=
  { NewGenServer with requests := { NewGenServer.requests with closed := true } }

/-- A codec whose response channel is closed and drained. -/
def drainedCodec : genServerCodec :=
  { NewGenServer with responses := { buf := [], closed := true, cap := 4096 } }

/-- A response holding the value 7 and no error. -/
def okResponse : Response :=
  { seq := 5, serviceMethod := "get", result := { Value := Value.int 7, Error := none } }

/-- A codec whose cached current response is `okResponse`. -/
def bodyCodec : genServerCodec :=
  { NewGenServer with current := okResponse }

/-- A response carrying a handler error. -/
def errResponse : Response :=
  { seq := 9, serviceMethod := "delete",
    result := { Value := Value.nil, Error := some (GoError.errorsNew "not found") } : Response }

/-- A codec whose response channel buffers `errResponse`. -/
def errCodec : genServerCodec :=
  { NewGenServer with responses := { buf := [errResponse], closed := false, cap := 4096 } }

/-! Theorems settling the claims. -/

/-- Claim C9: tryCatch leaves the error out-parameter unchanged when f
completes normally; on a panic with a string payload s it sets the error
to errors.New(s); on an error payload e it sets the error to e itself;
on any other payload it sets the error to the fmt.Errorf formatting of
the payload. -/
theorem tryCatch_spec (α : Type) (orig : α) (e0 : Option GoError) :
    (∀ a : α, tryCatch (Outcome.ok a) orig e0 = (a, e0)) ∧
    (∀ s, tryCatch (Outcome.panicked (PanicPayload.ofString s)) orig e0 =
      (orig, some (GoError.errorsNew s))) ∧
    (∀ e, tryCatch (Outcome.panicked (PanicPayload.ofError e)) orig e0 = (orig, some e)) ∧
    (∀ r, tryCatch (Outcome.panicked (PanicPayload.ofOther r)) orig e0 =
      (orig, some (GoError.fmtErrorf r))) :=
  ⟨fun _ => rfl, fun _ => rfl, fun _ => rfl, fun _ => rfl⟩

/-- Claim C8: a server constructed without capacities uses request and
response channels of capacity 4096 each, and newGenServer makes the two
capacities independently configurable. -/
theorem default_and_configurable_capacities :
    NewGenServer.requests.cap = 4096 ∧ NewGenServer.responses.cap = 4096 ∧
    ∀ incap outcap : Nat,
      (newGenServer incap outcap).requests.cap = incap ∧
      (newGenServer incap outcap).responses.cap = outcap :=
  ⟨rfl, rfl, fun _ _ => ⟨rfl, rfl⟩⟩

/-- Claim C7: when the Reply field of a completed call holds exactly a
pointer of the expected element type, Reply extracts the pointee
directly. -/
theorem Reply_deref (t : TypeTag) (call : rpcCall) (target : Value)
    (h : call.Reply = GoAny.ptr t target) :
    Reply t call = Outcome.ok target := by
  simp [Reply, h]

/-- Witness for Reply_deref at a concrete completed call. -/
theorem Reply_deref_witness :
    Reply TypeTag.stringT { Reply := GoAny.ptr TypeTag.stringT (Value.str "pong") } =
      Outcome.ok (Value.str "pong") :=
  Reply_deref TypeTag.stringT { Reply := GoAny.ptr TypeTag.stringT (Value.str "pong") }
    (Value.str "pong") rfl

/-- Claim C4: WriteRequest on a codec whose request channel is closed
catches the send-on-closed-channel fault and returns it as the error of
this submission, leaving the codec unchanged; on an open channel it
appends the request and returns a nil error. -/
theorem WriteRequest_spec (c : genServerCodec) (seq : Nat) (sm : String) (body : Value) :
    (c.requests.closed = true →
      WriteRequest c seq sm body = (c, some sendOnClosedError)) ∧
    (c.requests.closed = false →
      WriteRequest c seq sm body =
        ({ c with requests := { c.requests with
            buf := c.requests.buf ++ [{ seq := seq, serviceMethod := sm, body := body }] } },
          none)) := by
  constructor
  · intro h
    simp [WriteRequest, chanSend, tryCatch, h, recoverToError]
  · intro h
    simp [WriteRequest, chanSend, tryCatch, h]

/-- Witness for WriteRequest_spec on a concretely closed request channel. -/
theorem WriteRequest_spec_witness :
    WriteRequest closedReqCodec 3 "get" (Value.str "k") =
      (closedReqCodec, some sendOnClosedError) :=
  (WriteRequest_spec closedReqCodec 3 "get" (Value.str "k")).1 rfl

/-- Claim C5: receiving on the closed and drained response channel makes
ReadResponseHeader return io.EOF (not a handler error), and the dispatch
loop terminates normally once the request channel is closed and drained
(empty remaining trace). -/
theorem closed_channels_signal (c : genServerCodec) (res : RpcResponse)
    (hclosed : c.responses.closed = true) (hdrained : c.responses.buf = []) :
    ReadResponseHeader c res = some (c, res, some GoError.ioEOF) ∧
    (∀ (b : Behaviour) (ch : Chan Response) (logged : List GoError),
      Listen b [] ch logged = Outcome.ok (ch, logged)) := by
  constructor
  · simp [ReadResponseHeader, chanRecv, hclosed, hdrained]
  · intro b ch logged
    rfl

/-- Witness for closed_channels_signal on a concretely drained codec. -/
theorem closed_channels_signal_witness :
    ReadResponseHeader drainedCodec headerA = some (drainedCodec, headerA, some GoError.ioEOF) :=
  (closed_channels_signal drainedCodec headerA rfl rfl).1

/-- Claim C10: when the dequeued response carries a handler error,
ReadResponseHeader records the error message in the headers Error field
and returns the same error as its own return value; the return value is
nil exactly when the dequeued response carries no error. -/
theorem ReadResponseHeader_error_spec (c : genServerCodec) (res : RpcResponse)
    (resp : Response) (rest : List Response)
    (hbuf : c.responses.buf = resp :: rest) :
    ∃ c2 res2, ReadResponseHeader c res = some (c2, res2, resp.result.Error) ∧
      res2.Seq = resp.seq ∧ res2.ServiceMethod = resp.serviceMethod ∧
      (∀ e, resp.result.Error = some e → res2.Error = e.message) ∧
      (resp.result.Error = none → res2.Error = res.Error) := by
  unfold ReadResponseHeader chanRecv
  rw [hbuf]
  refine ⟨_, _, rfl, rfl, rfl, ?_, ?_⟩
  · intro e he
    simp [he]
  · intro he
    simp [he]

/-- Witness for ReadResponseHeader_error_spec on a concrete buffered
error response. -/
theorem ReadResponseHeader_error_spec_witness :
    ∃ c2 res2, ReadResponseHeader errCodec headerA = some (c2, res2, errResponse.result.Error) ∧
      res2.Seq = errResponse.seq ∧ res2.ServiceMethod = errResponse.serviceMethod ∧
      (∀ e, errResponse.result.Error = some e → res2.Error = e.message) ∧
      (errResponse.result.Error = none → res2.Error = headerA.Error) :=
  ReadResponseHeader_error_spec errCodec headerA errResponse [] rfl

/-- Claim C3: when the cached response carries no error, ReadResponseBody
writes the handler value into the destination exactly when the value is
non-nil, the destination is a pointer, and the pointer element type
equals the runtime type of the value; in every other case (nil value, nil
destination, non-pointer destination, or type mismatch) the destination
is left unmodified; no error is reported in either case. -/
theorem ReadResponseBody_spec (c : genServerCodec) (body : GoAny)
    (hne : c.current.result.Error = none) :
    (∀ ty tgt, body = GoAny.ptr ty tgt → c.current.result.Value.ty = some ty →
      ReadResponseBody c body = some (GoAny.ptr ty c.current.result.Value, none)) ∧
    (c.current.result.Value = Value.nil ∨ body = GoAny.nil ∨ (∃ w, body = GoAny.val w) ∨
      (∀ ty tgt, body = GoAny.ptr ty tgt → c.current.result.Value.ty ≠ some ty) →
      ReadResponseBody c body = some (body, none)) := by
  constructor
  · rintro ty tgt rfl hty
    cases hv : c.current.result.Value with
    | nil => rw [hv] at hty; exact absurd hty (by simp [Value.ty])
    | int n => simp [ReadResponseBody, hne, hv, hv ▸ hty]
    | str s => simp [ReadResponseBody, hne, hv, hv ▸ hty]
    | bool b => simp [ReadResponseBody, hne, hv, hv ▸ hty]
  · intro hcase
    rcases hcase with hval | rfl | ⟨w, rfl⟩ | hmismatch
    · simp [ReadResponseBody, hne, hval]
    · cases hv : c.current.result.Value <;> simp [ReadResponseBody, hne, hv]
    · cases hv : c.current.result.Value <;> simp [ReadResponseBody, hne, hv]
    · cases hb : body with
      | nil => cases hv : c.current.result.Value <;> simp [ReadResponseBody, hne, hv]
      | val w => cases hv : c.current.result.Value <;> simp [ReadResponseBody, hne, hv]
      | ptr ty tgt =>
        have hm := hmismatch ty tgt hb
        cases hv : c.current.result.Value with
        | nil => simp [ReadResponseBody, hne, hv]
        | int n => simp [ReadResponseBody, hne, hv, hv ▸ hm]
        | str s => simp [ReadResponseBody, hne, hv, hv ▸ hm]
        | bool b => simp [ReadResponseBody, hne, hv, hv ▸ hm]

/-- Witness for ReadResponseBody_spec: a matching int pointer receives
the cached int value. -/
theorem ReadResponseBody_spec_witness :
    ReadResponseBody bodyCodec (GoAny.ptr TypeTag.intT (Value.int 0)) =
      some (GoAny.ptr TypeTag.intT (Value.int 7), none) :=
  (ReadResponseBody_spec bodyCodec (GoAny.ptr TypeTag.intT (Value.int 0)) rfl).1
    TypeTag.intT (Value.int 0) rfl rfl

/-- Claim C2: over any trace of accepted requests whose Handle
invocations all return normally, with the response channel open, the
dispatch loop appends exactly one response per request, in arrival
order, each built by mkResponse from the request sequence number, its
serviceMethod and the value and error returned by Handle (this is
respOf), and logs nothing. -/
theorem Listen_fifo (b : Behaviour) (reqs : List Request) :
    ∀ (ch : Chan Response) (logged : List GoError),
      (∀ req ∈ reqs, ∃ v err, b req.serviceMethod req.seq req.body = Outcome.ok (v, err)) →
      ch.closed = false →
      Listen b reqs ch logged =
        Outcome.ok ({ ch with buf := ch.buf ++ reqs.map (respOf b) }, logged) := by
  induction reqs with
  | nil =>
    intro ch logged _ _
    simp [Listen]
  | cons req rest ih =>
    intro ch logged hok hopen
    obtain ⟨v, err, hv⟩ := hok req (List.mem_cons_self req rest)
    have hrest : ∀ r ∈ rest, ∃ v err, b r.serviceMethod r.seq r.body = Outcome.ok (v, err) :=
      fun r hr => hok r (List.mem_cons_of_mem req hr)
    have hsend : chanSend ch (mkResponse req v err) =
        Outcome.ok { ch with buf := ch.buf ++ [mkResponse req v err] } := by
      simp [chanSend, hopen]
    have hstep : Listen b (req :: rest) ch logged =
        Listen b rest { ch with buf := ch.buf ++ [mkResponse req v err] } logged := by
      rw [Listen, hv]
      simp [hsend, tryCatch]
    rw [hstep, ih { ch with buf := ch.buf ++ [mkResponse req v err] } logged hrest hopen]
    simp [respOf, hv]

/-- Witness for Listen_fifo on a concrete two-request trace handled by
the echo behaviour. -/
theorem Listen_fifo_witness :
    Listen echoBehaviour [reqA, reqB] openChan [] =
      Outcome.ok
        ({ openChan with buf := openChan.buf ++ [reqA, reqB].map (respOf echoBehaviour) }, []) :=
  Listen_fifo echoBehaviour [reqA, reqB] openChan []
    (fun r _ => ⟨r.body, none, rfl⟩) rfl

/-- Claim C1 counterexample: the Handle invocation in the dispatch loop
is not wrapped in tryCatch, so a behaviour that panics makes Listen
propagate the panic out of the loop instead of producing a response
carrying an error for that request. -/
theorem handler_panic_not_contained :
    Listen panickingBehaviour [reqA] openChan [] =
      Outcome.panicked (PanicPayload.ofString "boom") := rfl

/-- Claim C1 (amended): a panic raised inside the Handle invocation is
not caught at the loop boundary; it escapes the dispatch loop,
terminating it immediately, and no response is produced for that request
or any later one. -/
theorem handle_panic_escapes (b : Behaviour) (req : Request) (rest : List Request)
    (ch : Chan Response) (logged : List GoError) (p : PanicPayload)
    (h : b req.serviceMethod req.seq req.body = Outcome.panicked p) :
    Listen b (req :: rest) ch logged = Outcome.panicked p := by
  rw [Listen, h]

/-- Witness for handle_panic_escapes on a concrete panicking trace. -/
theorem handle_panic_escapes_witness :
    Listen panickingBehaviour [reqB] openChan [] =
      Outcome.panicked (PanicPayload.ofString "boom") :=
  handle_panic_escapes panickingBehaviour reqB [] openChan []
    (PanicPayload.ofString "boom") rfl

/-- Claim C6: when the Handle invocation returns normally but the
response channel has raced a close, the enqueue fault is caught and
appended to the log, the channel and the computed handler result are not
altered, the loop does not terminate, and it proceeds to the remaining
requests. -/
theorem response_send_race_contained (b : Behaviour) (req : Request) (rest : List Request)
    (ch : Chan Response) (logged : List GoError) (v : Value) (err : Option GoError)
    (hok : b req.serviceMethod req.seq req.body = Outcome.ok (v, err))
    (hclosed : ch.closed = true) :
    Listen b (req :: rest) ch logged = Listen b rest ch (logged ++ [sendOnClosedError]) := by
  rw [Listen, hok]
  simp [chanSend, hclosed, tryCatch, recoverToError]

/-- Witness for response_send_race_contained on a concrete closed
response channel. -/
theorem response_send_race_contained_witness :
    Listen echoBehaviour [reqA] closedChan [] =
      Listen echoBehaviour [] closedChan [sendOnClosedError] :=
  response_send_race_contained echoBehaviour reqA [] closedChan [] reqA.body none rfl rfl

end GenServer
